import Mathlib

/-!
# Asset movement tracking system — verification of the movement workflow

Shallow embedding of the movement approval workflow of the asset-tracking
Django application: the role model (`accounts/models.py`), the movement and
bulk-movement views (`movements/views.py`), and the REST permission classes
(`api/v1/permissions.py`).  Views are embedded as pure functions from an
acting user and the current record to either a rejection (the view emits an
error message and redirects without saving) or the saved record together
with the list of `ActivityLog` entries written during the call.
-/

namespace AssetTracker

/-- The four roles of `User.ROLE_CHOICES` in `accounts/models.py`. -/
inductive Role
  | viewer
  | operator
  | approver
  | admin
deriving DecidableEq, Repr

/-- The authenticated user: the `role` field plus Django's `is_superuser`
flag, the only attributes the workflow views consult besides identity. -/
structure User where
  id : Nat
  role : Role
  is_superuser : Bool
deriving DecidableEq, Repr

/-- `User.is_asset_admin` — Group 3: full access to all operations. -/
def User.is_asset_admin (u : User) : Bool :=
  u.role == .admin || u.is_superuser

/-- `User.is_movement_approver` — Group 2: can approve pending and set
completed/delivered. -/
def User.is_movement_approver (u : User) : Bool :=
  (u.role == .admin || u.role == .approver) || u.is_superuser

/-- `User.is_asset_operator` — Group 1: can view and create movements. -/
def User.is_asset_operator (u : User) : Bool :=
  (u.role == .admin || u.role == .approver || u.role == .operator) || u.is_superuser

/-- `User.is_viewer_only` — no authority, view only. -/
def User.is_viewer_only (u : User) : Bool :=
  u.role == .viewer && !u.is_superuser

/-- Movement status values used by the movement views and, per the spec,
by the `STATUS_CHOICES` of the Movement/BulkMovement models. -/
inductive MovementStatus
  | pending
  | in_transit
  | completed
  | delivered
  | acknowledged
  | cancelled
deriving DecidableEq, Repr

/-- The `ActivityLog.ACTION_TYPES` values written by the movement views. -/
inductive ActionType
  | movement_create
  | movement_update
  | movement_approve
  | bulk_movement_create
  | bulk_movement_update
  | bulk_movement_approve
  | other
deriving DecidableEq, Repr

/-- One row appended by `ActivityLog.log`: the acting user, the action
kind, and the target id recorded with the entry. -/
structure ActivityLogEntry where
  user : Nat
  action_type : ActionType
  target_id : Option Nat
deriving DecidableEq, Repr

/-- A single-asset `Movement` record, with the fields the views read or
write.  The model file is not part of the captured source; the field list
follows the views and the data-model section of the spec, which gives
`Movement` no `approved_by` field (only `BulkMovement` has one). -/
structure Movement where
  id : Nat
  asset : Nat
  from_location : Nat
  to_location : Nat
  initiated_by : Nat
  status : MovementStatus
  tracking_number : Nat
deriving DecidableEq, Repr

/-- A `BulkMovement` record: a set of assets, `initiated_by`, and the
`approved_by` field the bulk update view writes. -/
structure BulkMovement where
  id : Nat
  assets : List Nat
  from_location : Nat
  to_location : Nat
  initiated_by : Nat
  approved_by : Option Nat
  status : MovementStatus
  tracking_number : Nat
deriving DecidableEq, Repr

/-- A `MovementAcknowledgement` row as created by
`AcknowledgeMovementView.form_valid`. -/
structure MovementAcknowledgement where
  movement : Nat
  acknowledged_by : Nat
deriving DecidableEq, Repr

/-- Modelled from the spec: `movements/models.py` is not among the captured
source files, so the Movement model validation that a `ModelForm` save runs
is taken from the spec data model, which states `from_location` and
`to_location` must differ. -/
def movementModelClean (from_location to_location : Nat) : Bool :=
  from_location != to_location

/-- `MovementCreateView.form_valid` (`movements/views.py`): sets
`initiated_by` to the requesting user and saves the form; it writes no
activity log.  The initial `pending` status and the must-differ location
validation live in the missing model file and are modelled from the spec
(`movementModelClean`). -/
def movementCreateView (actor : User) (new_id asset from_location to_location tracking : Nat) :
    Except String (Movement × List ActivityLogEntry) :=
  if movementModelClean from_location to_location then
    .ok ({ id := new_id, asset := asset, from_location := from_location,
           to_location := to_location, initiated_by := actor.id,
           status := .pending, tracking_number := tracking }, [])
  else
    .error "ValidationError: from_location and to_location must be different"

/-- `MovementUpdateView.form_valid` (`movements/views.py` lines 69-79):
saves the submitted status field with no permission, initiator or
transition check, and writes no activity log.  The acting user is taken as
an argument but, as in the source, never consulted. -/
def movementUpdateView (actor : User) (m : Movement) (new_status : MovementStatus) :
    Movement × List ActivityLogEntry :=
  ({ m with status := new_status }, [])

/-- `CancelMovementView.form_valid` (`movements/views.py` lines 139-149):
sets the status to `cancelled` unconditionally and writes no activity
log. -/
def cancelMovementView (actor : User) (m : Movement) :
    Movement × List ActivityLogEntry :=
  ({ m with status := .cancelled }, [])

/-- `AcknowledgeMovementView.form_valid` (`movements/views.py` lines
121-137): creates one `MovementAcknowledgement` for the acting user and
then sets the movement status to `completed`.  No precondition on the
current status, no duplicate check, and no activity log. -/
def acknowledgeMovementView (actor : User) (m : Movement) :
    Movement × MovementAcknowledgement × List ActivityLogEntry :=
  ({ m with status := .completed },
   { movement := m.id, acknowledged_by := actor.id },
   [])

/-- `BulkMovementCreateView.post` (`movements/views.py` lines 221-284):
rejects an empty asset selection, then equal from/to locations, and
otherwise creates the bulk movement in `pending` status with
`initiated_by` set to the requesting user and logs one
`bulk_movement_create` entry. -/
def bulkMovementCreatePost (actor : User) (asset_ids : List Nat)
    (from_location_id to_location_id new_id tracking : Nat) :
    Except String (BulkMovement × List ActivityLogEntry) :=
  if asset_ids.isEmpty then
    .error "Please select at least one asset to move."
  else if from_location_id == to_location_id then
    .error "From Location and To Location must be different."
  else
    .ok ({ id := new_id, assets := asset_ids, from_location := from_location_id,
           to_location := to_location_id, initiated_by := actor.id,
           approved_by := none, status := .pending, tracking_number := tracking },
         [{ user := actor.id, action_type := .bulk_movement_create,
            target_id := some tracking }])

/-- `BulkMovementUpdateView.form_valid` (`movements/views.py` lines
347-385): rejects the call when the actor is the initiator, the change
leaves `pending` for completed/delivered/in_transit, and the actor is not
a superuser; otherwise saves the submitted status, setting `approved_by`
and logging `bulk_movement_approve` when the status changes into
completed/delivered, logging `bulk_movement_update` on any other status
change, and logging nothing when the status is unchanged. -/
def bulkMovementUpdateFormValid (actor : User) (bm : BulkMovement)
    (new_status : MovementStatus) :
    Except String (BulkMovement × List ActivityLogEntry) :=
  let old_status := bm.status
  let is_initiator := actor.id == bm.initiated_by
  let is_approving :=
    (new_status == .completed || new_status == .delivered || new_status == .in_transit)
      && old_status == .pending
  if is_initiator && is_approving && !actor.is_superuser then
    .error "You cannot approve your own movement request. A different user must approve this movement."
  else if (new_status == .completed || new_status == .delivered)
      && old_status != new_status then
    .ok ({ bm with status := new_status, approved_by := some actor.id },
         [{ user := actor.id, action_type := .bulk_movement_approve,
            target_id := some bm.tracking_number }])
  else if new_status != old_status then
    .ok ({ bm with status := new_status },
         [{ user := actor.id, action_type := .bulk_movement_update,
            target_id := some bm.tracking_number }])
  else
    .ok ({ bm with status := new_status }, [])

/-- Number of activity-log entries written by a call: zero for a rejected
call, the length of the log list for an accepted one. -/
def auditCount {α : Type} : Except String (α × List ActivityLogEntry) → Nat
  | .error _ => 0
  | .ok (_, logs) => logs.length

/-- Boolean attribute lookup on a user instance, as Python `getattr`
resolves it for the attributes the REST permission classes consult.  The
defined names are the four role properties of `accounts/models.py` plus
`is_superuser` and `is_authenticated` from Django's user base class (the
latter is always true on an authenticated `User` instance).  Any other
name — in particular `is_admin` and `is_location_manager` — is undefined
and yields `none`, which in Python is an `AttributeError`. -/
def userGetBoolAttr (u : User) (name : String) : Option Bool :=
  if name == "is_asset_admin" then some u.is_asset_admin
  else if name == "is_movement_approver" then some u.is_movement_approver
  else if name == "is_asset_operator" then some u.is_asset_operator
  else if name == "is_viewer_only" then some u.is_viewer_only
  else if name == "is_superuser" then some u.is_superuser
  else if name == "is_authenticated" then some true
  else none

/-- `rest_framework.permissions.SAFE_METHODS`. -/
def SAFE_METHODS : List String := ["GET", "HEAD", "OPTIONS"]

/-- `IsAdminUser.has_permission` (`api/v1/permissions.py` lines 17-22):
`request.user and request.user.is_authenticated and request.user.is_admin`,
with attribute access on an undefined name raising `AttributeError`. -/
def IsAdminUser_has_permission (request_user : Option User) : Except String Bool :=
  match request_user with
  | none => .ok false
  | some u =>
    match userGetBoolAttr u "is_authenticated" with
    | none => .error "AttributeError: is_authenticated"
    | some auth =>
      if !auth then .ok false
      else
        match userGetBoolAttr u "is_admin" with
        | none => .error "AttributeError: is_admin"
        | some b => .ok b

/-- `IsAdminOrReadOnly.has_permission` (`api/v1/permissions.py` lines
46-56): safe methods only require an authenticated user; write methods
additionally read `request.user.is_admin`. -/
def IsAdminOrReadOnly_has_permission (method : String) (request_user : Option User) :
    Except String Bool :=
  if SAFE_METHODS.contains method then
    match request_user with
    | none => .ok false
    | some u => .ok ((userGetBoolAttr u "is_authenticated").getD false)
  else
    match request_user with
    | none => .ok false
    | some u =>
      if !((userGetBoolAttr u "is_authenticated").getD false) then .ok false
      else
        match userGetBoolAttr u "is_admin" with
        | none => .error "AttributeError: is_admin"
        | some b => .ok b

/-- C9: the capability predicates of `accounts/models.py` are monotone in
the role hierarchy — `is_asset_admin` implies `is_movement_approver`,
`is_movement_approver` implies `is_asset_operator`, and `is_superuser`
implies all three regardless of role. -/
theorem C9_capability_monotone (u : User) :
    (u.is_asset_admin = true → u.is_movement_approver = true)
    ∧ (u.is_movement_approver = true → u.is_asset_operator = true)
    ∧ (u.is_superuser = true →
        u.is_asset_admin = true ∧ u.is_movement_approver = true
          ∧ u.is_asset_operator = true) := by
  obtain ⟨i, r, s⟩ := u
  cases r <;> cases s <;>
    simp [User.is_asset_admin, User.is_movement_approver, User.is_asset_operator]

/-- C9 witness: the monotonicity theorem applied to a concrete admin-role
user. -/
theorem C9_capability_monotone_witness :
    (User.mk 0 .admin false).is_movement_approver = true
    ∧ (User.mk 0 .admin false).is_asset_operator = true :=
  ⟨(C9_capability_monotone ⟨0, .admin, false⟩).1 (by decide),
   (C9_capability_monotone ⟨0, .admin, false⟩).2.1 (by decide)⟩

/-- C6: requesting the status a record already holds is a no-op success
for both the single-movement and the bulk update view — the record is
returned unchanged (so `approved_by` is untouched) and no activity-log
entry is written. -/
theorem C6_idempotent_status_update (actor : User) (m : Movement) (bm : BulkMovement) :
    movementUpdateView actor m m.status = (m, [])
    ∧ bulkMovementUpdateFormValid actor bm bm.status = .ok (bm, []) := by
  obtain ⟨i, a, f, t, ib, st, tn⟩ := m
  obtain ⟨i2, as2, f2, t2, ib2, ab2, st2, tn2⟩ := bm
  cases st <;> cases st2 <;>
    simp [movementUpdateView, bulkMovementUpdateFormValid]

/-- C3 counterexample: acknowledging a movement that is in `delivered`
status sets its status to `completed`, not to `acknowledged` as the claim
states. -/
theorem C3_counterexample :
    ((acknowledgeMovementView ⟨3, .approver, false⟩
        ⟨10, 5, 100, 200, 1, .delivered, 777⟩).1).status = .completed
    ∧ MovementStatus.completed ≠ MovementStatus.acknowledged := by
  decide

/-- C3 amended: `acknowledge` creates exactly one acknowledgement record
for the acting user and sets the movement status to `completed` (not
`acknowledged`); the view checks neither the `delivered` precondition nor
the absence of an earlier acknowledgement, so no typed duplicate error is
raised at this layer. -/
theorem C3_acknowledge_sets_completed (actor : User) (m : Movement) :
    (acknowledgeMovementView actor m).1.status = .completed
    ∧ (acknowledgeMovementView actor m).2.1
        = { movement := m.id, acknowledged_by := actor.id }
    ∧ (acknowledgeMovementView actor m).2.2 = [] := by
  simp [acknowledgeMovementView]

/-- C10: for every authenticated user, `IsAdminUser.has_permission` and
the write branch of `IsAdminOrReadOnly.has_permission` read
`user.is_admin`, which the `User` model does not define (it defines
`is_asset_admin`), so both checks raise an attribute error instead of
returning a boolean. -/
theorem C10_is_admin_attribute_error (u : User) (method : String)
    (hm : SAFE_METHODS.contains method = false) :
    userGetBoolAttr u "is_admin" = none
    ∧ (userGetBoolAttr u "is_asset_admin").isSome = true
    ∧ IsAdminUser_has_permission (some u) = .error "AttributeError: is_admin"
    ∧ IsAdminOrReadOnly_has_permission method (some u)
        = .error "AttributeError: is_admin" := by
  refine ⟨rfl, rfl, rfl, ?_⟩
  have hmem : method ∉ SAFE_METHODS := by simpa using hm
  simp [IsAdminOrReadOnly_has_permission, hmem, userGetBoolAttr]

/-- C10 witness: the attribute-error theorem applied to a concrete
operator-role user and the POST method. -/
theorem C10_is_admin_attribute_error_witness :
    IsAdminUser_has_permission (some ⟨7, .operator, false⟩)
      = .error "AttributeError: is_admin"
    ∧ IsAdminOrReadOnly_has_permission "POST" (some ⟨7, .operator, false⟩)
      = .error "AttributeError: is_admin" :=
  ⟨(C10_is_admin_attribute_error ⟨7, .operator, false⟩ "POST" (by decide)).2.2.1,
   (C10_is_admin_attribute_error ⟨7, .operator, false⟩ "POST" (by decide)).2.2.2⟩

/-- C1 counterexample: the claim fails on single movements and on the
administrator-role override.  First conjunct: a non-superuser operator who
initiated a pending single movement transitions it to `completed` through
`MovementUpdateView` — the update succeeds with no authorization failure.
Second and third conjuncts: a non-superuser admin-role initiator (who has
the administrator capability `is_asset_admin`) is still rejected by the
bulk update view, so the role-based override the claim describes does not
exist either. -/
theorem C1_counterexample :
    movementUpdateView ⟨1, .operator, false⟩ ⟨10, 5, 100, 200, 1, .pending, 777⟩ .completed
      = (⟨10, 5, 100, 200, 1, .completed, 777⟩, [])
    ∧ (bulkMovementUpdateFormValid ⟨2, .admin, false⟩
        ⟨20, [5], 100, 200, 2, none, .pending, 888⟩ .completed).isOk = false
    ∧ (User.mk 2 .admin false).is_asset_admin = true :=
  ⟨rfl, rfl, rfl⟩

/-- C1 amended: only the bulk update view enforces separation of duties —
a transition out of `pending` into completed/delivered/in_transit by the
initiator is rejected unless the actor is a superuser (the role-based
administrator capability does not override); the single-movement update
view performs no such check and always applies the requested status. -/
theorem C1_separation_of_duties (actor : User) (bm : BulkMovement) (m : Movement)
    (new_status : MovementStatus)
    (hpend : bm.status = .pending)
    (hinit : actor.id = bm.initiated_by)
    (happr : new_status = .completed ∨ new_status = .delivered ∨ new_status = .in_transit)
    (hsu : actor.is_superuser = false) :
    (bulkMovementUpdateFormValid actor bm new_status).isOk = false
    ∧ (movementUpdateView actor m new_status).1.status = new_status := by
  constructor
  · rcases happr with h | h | h <;>
      simp [bulkMovementUpdateFormValid, hpend, hinit, h, hsu, Except.isOk, Except.toBool]
  · simp [movementUpdateView]

/-- C1 witness: the amended theorem applied to a concrete non-superuser
operator initiator, a pending bulk movement, and a single movement. -/
theorem C1_separation_of_duties_witness :
    (bulkMovementUpdateFormValid ⟨1, .operator, false⟩
        ⟨21, [6], 100, 200, 1, none, .pending, 900⟩ .in_transit).isOk = false
    ∧ (movementUpdateView ⟨1, .operator, false⟩
        ⟨11, 6, 100, 200, 1, .pending, 901⟩ .in_transit).1.status = .in_transit :=
  C1_separation_of_duties ⟨1, .operator, false⟩
    ⟨21, [6], 100, 200, 1, none, .pending, 900⟩
    ⟨11, 6, 100, 200, 1, .pending, 901⟩ .in_transit
    rfl rfl (Or.inr (Or.inr rfl)) rfl

/-- C2 counterexample: the backward transition completed→pending, which
the claim says is rejected with an `InvalidTransitionError`, is accepted
by the bulk update view — the status is changed back to `pending` and a
`bulk_movement_update` log entry is written. -/
theorem C2_counterexample :
    bulkMovementUpdateFormValid ⟨3, .approver, false⟩
        ⟨22, [5], 100, 200, 1, none, .completed, 902⟩ .pending
      = .ok (⟨22, [5], 100, 200, 1, none, .pending, 902⟩,
             [⟨3, .bulk_movement_update, some 902⟩]) :=
  rfl

/-- C2 amended: no allowed-transition table is enforced.  The bulk update
view accepts every requested status — including backward and skip
transitions — whenever the actor is not the initiator, and the
single-movement update view accepts every requested status
unconditionally. -/
theorem C2_no_transition_table (actor : User) (bm : BulkMovement) (m : Movement)
    (new_status : MovementStatus)
    (h : actor.id ≠ bm.initiated_by) :
    (∃ bm2 logs, bulkMovementUpdateFormValid actor bm new_status = .ok (bm2, logs)
        ∧ bm2.status = new_status)
    ∧ (movementUpdateView actor m new_status).1.status = new_status := by
  have hne : (actor.id == bm.initiated_by) = false := by
    simp [h]
  constructor
  · unfold bulkMovementUpdateFormValid
    simp only [hne, Bool.false_and, Bool.false_eq_true, if_false]
    split
    · exact ⟨_, _, rfl, rfl⟩
    · split
      · exact ⟨_, _, rfl, rfl⟩
      · exact ⟨_, _, rfl, rfl⟩
  · simp [movementUpdateView]

/-- C2 witness: the amended theorem applied to a concrete approver and the
backward transition delivered→pending. -/
theorem C2_no_transition_table_witness :
    (∃ bm2 logs, bulkMovementUpdateFormValid ⟨3, .approver, false⟩
        ⟨23, [5], 100, 200, 1, none, .delivered, 903⟩ .pending = .ok (bm2, logs)
        ∧ bm2.status = .pending)
    ∧ (movementUpdateView ⟨3, .approver, false⟩
        ⟨12, 5, 100, 200, 1, .completed, 904⟩ .pending).1.status = .pending :=
  C2_no_transition_table ⟨3, .approver, false⟩
    ⟨23, [5], 100, 200, 1, none, .delivered, 903⟩
    ⟨12, 5, 100, 200, 1, .completed, 904⟩ .pending (by decide)

/-- C5 counterexample: a viewer-role user who is not the initiator and not
a superuser — so `is_movement_approver` is false — successfully moves a
pending bulk movement to `completed` (and is even recorded as its
approver), and likewise moves a pending single movement to `completed`. -/
theorem C5_counterexample :
    (User.mk 4 .viewer false).is_movement_approver = false
    ∧ bulkMovementUpdateFormValid ⟨4, .viewer, false⟩
        ⟨24, [5], 100, 200, 1, none, .pending, 905⟩ .completed
      = .ok (⟨24, [5], 100, 200, 1, some 4, .completed, 905⟩,
             [⟨4, .bulk_movement_approve, some 905⟩])
    ∧ (movementUpdateView ⟨4, .viewer, false⟩
        ⟨13, 5, 100, 200, 1, .pending, 906⟩ .completed).1.status = .completed :=
  ⟨rfl, rfl, rfl⟩

/-- C5 amended: no capability check guards transitions out of `pending` —
any authenticated actor without the `can_approve` capability can still
move a pending bulk movement to any status provided they are not its
initiator, and can move a pending single movement to any status
unconditionally. -/
theorem C5_no_capability_check (actor : User) (bm : BulkMovement) (m : Movement)
    (new_status : MovementStatus)
    (hcap : actor.is_movement_approver = false)
    (hinit : actor.id ≠ bm.initiated_by)
    (hpend : bm.status = .pending) :
    (∃ bm2 logs, bulkMovementUpdateFormValid actor bm new_status = .ok (bm2, logs)
        ∧ bm2.status = new_status)
    ∧ (movementUpdateView actor m new_status).1.status = new_status := by
  have hne : (actor.id == bm.initiated_by) = false := by
    simp [hinit]
  constructor
  · unfold bulkMovementUpdateFormValid
    simp only [hne, Bool.false_and, Bool.false_eq_true, if_false]
    split
    · exact ⟨_, _, rfl, rfl⟩
    · split
      · exact ⟨_, _, rfl, rfl⟩
      · exact ⟨_, _, rfl, rfl⟩
  · simp [movementUpdateView]

/-- C5 witness: the amended theorem applied to a concrete viewer-role
actor moving a pending bulk movement and a pending single movement to
`in_transit`. -/
theorem C5_no_capability_check_witness :
    (∃ bm2 logs, bulkMovementUpdateFormValid ⟨4, .viewer, false⟩
        ⟨25, [5], 100, 200, 1, none, .pending, 907⟩ .in_transit = .ok (bm2, logs)
        ∧ bm2.status = .in_transit)
    ∧ (movementUpdateView ⟨4, .viewer, false⟩
        ⟨14, 5, 100, 200, 1, .pending, 908⟩ .in_transit).1.status = .in_transit :=
  C5_no_capability_check ⟨4, .viewer, false⟩
    ⟨25, [5], 100, 200, 1, none, .pending, 907⟩
    ⟨14, 5, 100, 200, 1, .pending, 908⟩ .in_transit
    (by decide) (by decide) rfl

/-- C8 counterexample: the single-movement update view records no
approver.  Two distinct actors — an approver and a superuser admin —
successfully change a pending single movement to `completed` and produce
the exact same saved record; since the result is independent of the
acting user (a `Movement` carries no `approved_by` field and the view
writes none), `approved_by` is not set to the acting user. -/
theorem C8_counterexample :
    movementUpdateView ⟨3, .approver, false⟩
        ⟨15, 5, 100, 200, 1, .pending, 909⟩ .completed
      = movementUpdateView ⟨9, .admin, true⟩
        ⟨15, 5, 100, 200, 1, .pending, 909⟩ .completed
    ∧ movementUpdateView ⟨3, .approver, false⟩
        ⟨15, 5, 100, 200, 1, .pending, 909⟩ .completed
      = (⟨15, 5, 100, 200, 1, .completed, 909⟩, []) :=
  ⟨rfl, rfl⟩

/-- C8 amended: only bulk movements record the approver — every accepted
bulk update that changes the status into `completed` or `delivered` sets
`approved_by` to the acting user; the single-movement update view saves
the requested status without recording who made the change. -/
theorem C8_approved_by_set (actor : User) (bm : BulkMovement)
    (new_status : MovementStatus) (bm2 : BulkMovement) (logs : List ActivityLogEntry)
    (hnew : new_status = .completed ∨ new_status = .delivered)
    (hch : bm.status ≠ new_status)
    (hok : bulkMovementUpdateFormValid actor bm new_status = .ok (bm2, logs)) :
    bm2.approved_by = some actor.id ∧ bm2.status = new_status := by
  have hbne : (bm.status != new_status) = true := by
    simp [hch]
  unfold bulkMovementUpdateFormValid at hok
  rcases hnew with h | h <;>
    · simp only [h] at hok hbne ⊢
      split at hok
      · exact absurd hok (by simp)
      · simp only [Bool.true_or, Bool.or_true, Bool.true_and, hbne, if_true] at hok
        obtain ⟨h1, -⟩ := Prod.mk.injEq .. ▸ Except.ok.injEq .. ▸ hok
        subst h1
        exact ⟨rfl, rfl⟩

/-- C8 witness: the amended theorem applied to a concrete approver
completing a pending bulk movement. -/
theorem C8_approved_by_set_witness :
    (BulkMovement.mk 26 [5] 100 200 1 (some 3) .completed 910).approved_by = some 3
    ∧ (BulkMovement.mk 26 [5] 100 200 1 (some 3) .completed 910).status = .completed :=
  C8_approved_by_set ⟨3, .approver, false⟩
    ⟨26, [5], 100, 200, 1, none, .pending, 910⟩ .completed
    ⟨26, [5], 100, 200, 1, some 3, .completed, 910⟩
    [⟨3, .bulk_movement_approve, some 910⟩]
    (Or.inl rfl) (by decide) rfl

/-- C4 counterexample: a successful single-movement creation — the claim
says every successful create appends exactly one audit entry — writes an
empty activity-log list. -/
theorem C4_counterexample :
    movementCreateView ⟨1, .operator, false⟩ 31 5 100 200 912
      = .ok (⟨31, 5, 100, 200, 1, .pending, 912⟩, []) :=
  rfl

/-- C4 amended: only the bulk operations write audit entries.  A bulk
create appends exactly one entry when it succeeds and zero when it is
rejected; a bulk status update appends zero entries when rejected or when
the requested status already holds, and exactly one otherwise; the
single-movement create, update, cancel and acknowledge views never append
an audit entry. -/
theorem C4_audit_entries (actor : User) (bm : BulkMovement) (m : Movement)
    (new_status : MovementStatus) (asset_ids : List Nat) (fl tl nid tr a : Nat) :
    auditCount (bulkMovementCreatePost actor asset_ids fl tl nid tr)
      = (if asset_ids.isEmpty || fl == tl then 0 else 1)
    ∧ auditCount (bulkMovementUpdateFormValid actor bm new_status)
      = (if (actor.id == bm.initiated_by)
            && ((new_status == .completed || new_status == .delivered
                  || new_status == .in_transit) && bm.status == .pending)
            && !actor.is_superuser
         then 0
         else if new_status = bm.status then 0 else 1)
    ∧ auditCount (movementCreateView actor nid a fl tl tr) = 0
    ∧ (movementUpdateView actor m new_status).2 = []
    ∧ (cancelMovementView actor m).2 = []
    ∧ (acknowledgeMovementView actor m).2.2 = [] := by
  refine ⟨?_, ?_, ?_, rfl, rfl, rfl⟩
  · cases h1 : asset_ids.isEmpty <;> cases h2 : (fl == tl) <;>
      simp [bulkMovementCreatePost, auditCount, h1, h2]
  · by_cases hrej :
        ((actor.id == bm.initiated_by)
          && ((new_status == MovementStatus.completed
                || new_status == MovementStatus.delivered
                || new_status == MovementStatus.in_transit)
              && bm.status == MovementStatus.pending)
          && !actor.is_superuser) = true
    · simp [bulkMovementUpdateFormValid, hrej, auditCount]
    · simp only [Bool.not_eq_true] at hrej
      simp only [bulkMovementUpdateFormValid, hrej, Bool.false_eq_true, if_false]
      by_cases heq : new_status = bm.status
      · subst heq
        simp [auditCount]
      · have hbne : (bm.status != new_status) = true := by
          simp [Ne.symm heq]
        have hbne2 : (new_status != bm.status) = true := by
          simp [heq]
        cases h2 : (new_status == MovementStatus.completed
            || new_status == MovementStatus.delivered) <;>
          simp [auditCount, h2, hbne, hbne2, heq]
  · cases h : movementModelClean fl tl <;>
      simp [movementCreateView, auditCount, h]

/-- C7: the creation operations validate their input and initialise the
record.  A bulk create with an empty asset selection is rejected, as is
one with equal from/to locations; otherwise it persists a `pending` record
with `initiated_by` set to the actor.  The single-movement create (whose
must-differ validation lives in the model file missing from the captured
source and is modelled from the spec) behaves the same on its single
asset. -/
theorem C7_create_validation (actor : User) (asset_ids : List Nat)
    (fl tl nid tr a : Nat) :
    (asset_ids = [] → (bulkMovementCreatePost actor asset_ids fl tl nid tr).isOk = false)
    ∧ (fl = tl → (bulkMovementCreatePost actor asset_ids fl tl nid tr).isOk = false)
    ∧ (asset_ids ≠ [] → fl ≠ tl →
        bulkMovementCreatePost actor asset_ids fl tl nid tr
          = .ok ({ id := nid, assets := asset_ids, from_location := fl,
                   to_location := tl, initiated_by := actor.id, approved_by := none,
                   status := .pending, tracking_number := tr },
                 [{ user := actor.id, action_type := .bulk_movement_create,
                    target_id := some tr }]))
    ∧ (fl = tl → (movementCreateView actor nid a fl tl tr).isOk = false)
    ∧ (fl ≠ tl →
        movementCreateView actor nid a fl tl tr
          = .ok ({ id := nid, asset := a, from_location := fl, to_location := tl,
                   initiated_by := actor.id, status := .pending,
                   tracking_number := tr }, [])) := by
  refine ⟨?_, ?_, ?_, ?_, ?_⟩
  · intro h
    subst h
    simp [bulkMovementCreatePost, Except.isOk, Except.toBool]
  · intro h
    subst h
    cases h1 : asset_ids.isEmpty <;>
      simp [bulkMovementCreatePost, h1, Except.isOk, Except.toBool]
  · intro h1 h2
    have h1e : asset_ids.isEmpty = false := by
      cases asset_ids with
      | nil => exact absurd rfl h1
      | cons x xs => rfl
    have h2e : (fl == tl) = false := by
      simp [h2]
    simp [bulkMovementCreatePost, h1e, h2e]
  · intro h
    subst h
    simp [movementCreateView, movementModelClean, Except.isOk, Except.toBool]
  · intro h
    have he : (fl != tl) = true := by
      simp [h]
    simp [movementCreateView, movementModelClean, he]

/-- C7 witness: the creation theorem applied to concrete inputs — an empty
bulk selection, equal locations, and a well-formed bulk and single
create. -/
theorem C7_create_validation_witness :
    (bulkMovementCreatePost ⟨1, .operator, false⟩ [] 100 200 32 913).isOk = false
    ∧ (bulkMovementCreatePost ⟨1, .operator, false⟩ [5] 100 100 32 913).isOk = false
    ∧ bulkMovementCreatePost ⟨1, .operator, false⟩ [5, 6] 100 200 32 913
        = .ok (⟨32, [5, 6], 100, 200, 1, none, .pending, 913⟩,
               [⟨1, .bulk_movement_create, some 913⟩])
    ∧ (movementCreateView ⟨1, .operator, false⟩ 33 5 100 100 914).isOk = false
    ∧ movementCreateView ⟨1, .operator, false⟩ 33 5 100 200 914
        = .ok (⟨33, 5, 100, 200, 1, .pending, 914⟩, []) :=
  ⟨(C7_create_validation ⟨1, .operator, false⟩ [] 100 200 32 913 5).1 rfl,
   (C7_create_validation ⟨1, .operator, false⟩ [5] 100 100 32 913 5).2.1 rfl,
   (C7_create_validation ⟨1, .operator, false⟩ [5, 6] 100 200 32 913 5).2.2.1
     (by decide) (by decide),
   (C7_create_validation ⟨1, .operator, false⟩ [5] 100 100 33 914 5).2.2.2.1 rfl,
   (C7_create_validation ⟨1, .operator, false⟩ [5] 100 200 33 914 5).2.2.2.2
     (by decide)⟩

end AssetTracker
